import Mathlib

/-!
Verification of the red-pandas backend against its specification.

The definitions below are a shallow embedding of the Python source under
`backend/`: `config.py` (settings constants), `code_validator.py` (the AST
security validator), `models.py` (pydantic schemas for `Session` and `Query`),
`executor.py` (the sandboxed executor) and `conversation_manager.py` (result
summarization).  Machine-level details that the claims do not touch
(matplotlib figures, pandas DataFrame/Series/ndarray normalization branches)
are outside the modelled value type and are noted where relevant.
-/

namespace RedPandas

/-! ## Configuration (`config.py`, class `Settings`) -/

def MAX_EXECUTION_TIMEOUT : Nat := 5

def MAX_DATAFRAME_SIZE : Int := 100000000

def MAX_OUTPUT_SIZE : Nat := 10000

def MAX_SAMPLE_ROWS : Nat := 10

/-- `Settings.FORBIDDEN_IMPORTS` from `config.py`. -/
def FORBIDDEN_IMPORTS : List String :=
  ["os", "sys", "subprocess", "socket", "requests",
   "urllib", "http", "ftplib", "telnetlib", "ssl",
   "importlib", "pkgutil", "inspect", "ctypes",
   "shutil", "glob", "pathlib", "tempfile"]

/-- `Settings.FORBIDDEN_BUILTINS` from `config.py`. -/
def FORBIDDEN_BUILTINS : List String :=
  ["eval", "exec", "compile", "__import__",
   "open", "input", "help", "globals", "locals",
   "vars", "dir", "getattr", "setattr", "delattr",
   "breakpoint", "memoryview", "bytearray"]

/-! ## Python abstract syntax (`ast` nodes used by `code_validator.py`)

The source validates a parsed `ast` tree.  We embed the node shapes the
validator inspects: names with their expression context, attribute access,
calls, constants, plain and annotated assignments, expression statements,
imports and `if` statements (so that "anywhere in the tree" is non-trivial).
-/

inductive ExprCtx
  | load
  | store
  deriving DecidableEq, Repr

inductive Const
  | noneC
  | strC (s : String)
  | intC (n : Int)
  | boolC (b : Bool)
  deriving DecidableEq, Repr

inductive Expr
  | name (id : String) (ctx : ExprCtx)
  | attrAccess (value : Expr) (attrName : String) (ctx : ExprCtx)
  | call (func : Expr) (args : List Expr)
  | const (c : Const)

inductive Stmt
  | assign (targets : List Expr) (value : Expr)
  | annAssign (target : Expr) (typeAnn : Expr) (value : Option Expr)
  | exprStmt (e : Expr)
  | importStmt (names : List String)
  | importFrom (moduleName : Option String) (names : List String)
  | ifStmt (test : Expr) (body : List Stmt) (orelse : List Stmt)

/-! ## Security validator (`code_validator.py`) -/

/-- `alias.name.split('.')[0]` / `node.module.split('.')[0]`. -/
def firstSegment (s : String) : String := (s.splitOn ".").headD s

/-- The `safe_dunders` allow-list in `ASTSecurityValidator.visit_Attribute`. -/
def safe_dunders : List String :=
  ["__name__", "__doc__", "__class__", "__dict__",
   "__str__", "__repr__", "__len__", "__getitem__"]

/-- `visit_Name`: a forbidden builtin read in `Load` context raises. -/
def checkName (id : String) (ctx : ExprCtx) : Except String Unit :=
  if ctx = ExprCtx.load && id ∈ FORBIDDEN_BUILTINS then
    Except.error ("Forbidden built-in function: " ++ id)
  else Except.ok ()

/-- Python `s.startswith(t)`, computed over the character list. -/
def strStartsWith (s t : String) : Bool := t.data.isPrefixOf s.data

/-- Python `s.endswith(t)`, computed over the character list. -/
def strEndsWith (s t : String) : Bool := t.data.reverse.isPrefixOf s.data.reverse

/-- `visit_Attribute`: dunder attributes outside `safe_dunders` raise. -/
def checkDunderAttr (a : String) : Except String Unit :=
  if strStartsWith a "__" && strEndsWith a "__" then
    if a ∈ safe_dunders then Except.ok ()
    else Except.error ("Forbidden dunder attribute: " ++ a)
  else Except.ok ()

/-- The head checks of `visit_Call`: direct by-name calls to the four
reflective accessors, and method calls named `eval`/`query`. -/
def checkCallHead : Expr → Except String Unit
  | Expr.name id _ =>
      if id ∈ ["getattr", "setattr", "delattr", "hasattr"] then
        Except.error ("Forbidden function call: " ++ id)
      else Except.ok ()
  | Expr.attrAccess _ a _ =>
      if a ∈ ["eval", "query"] then
        Except.error ("Forbidden method call: " ++ a)
      else Except.ok ()
  | _ => Except.ok ()

/-- `visit_Import`: the first path segment of each imported name is matched
against the forbidden-import set. -/
def checkImportNames (names : List String) : Except String Unit :=
  match names with
  | [] => Except.ok ()
  | n :: rest =>
      if firstSegment n ∈ FORBIDDEN_IMPORTS then
        Except.error ("Forbidden import: " ++ n)
      else checkImportNames rest

mutual

/-- The visitor's traversal of an expression: the node's own check first
(`visit_Name` / `visit_Call` / `visit_Attribute`), then `generic_visit`
descends into the children in field order. -/
def checkExpr : Expr → Except String Unit
  | Expr.name id ctx => checkName id ctx
  | Expr.attrAccess v a _ => do
      checkDunderAttr a
      checkExpr v
  | Expr.call f args => do
      checkCallHead f
      checkExpr f
      checkExprList args
  | Expr.const _ => Except.ok ()

def checkExprList : List Expr → Except String Unit
  | [] => Except.ok ()
  | e :: es => do
      checkExpr e
      checkExprList es

end

mutual

/-- The visitor's traversal of a statement (`generic_visit` field order). -/
def checkStmt : Stmt → Except String Unit
  | Stmt.assign ts v => do
      checkExprList ts
      checkExpr v
  | Stmt.annAssign t a v => do
      checkExpr t
      checkExpr a
      (match v with
       | some e => checkExpr e
       | none => Except.ok ())
  | Stmt.exprStmt e => checkExpr e
  | Stmt.importStmt names => checkImportNames names
  | Stmt.importFrom m _ =>
      (match m with
       | some mod =>
           if firstSegment mod ∈ FORBIDDEN_IMPORTS then
             Except.error ("Forbidden import: from " ++ mod)
           else Except.ok ()
       | none => Except.ok ())
  | Stmt.ifStmt t b o => do
      checkExpr t
      checkStmts b
      checkStmts o

def checkStmts : List Stmt → Except String Unit
  | [] => Except.ok ()
  | s :: ss => do
      checkStmt s
      checkStmts ss

end

/-- `isinstance(target, ast.Name) and target.id == 'result'`. -/
def targetIsResult : Expr → Bool
  | Expr.name id _ => id = "result"
  | _ => false

mutual

/-- `CodeValidator._check_result_assignment`, restricted to one node of the
`ast.walk` traversal: a plain `Assign` with a `result` name target, or an
`AnnAssign` whose target is `result` (the source does not look at whether the
annotated assignment carries a value). -/
def stmtAssignsResult : Stmt → Bool
  | Stmt.assign ts _ => ts.any targetIsResult
  | Stmt.annAssign t _ _ => targetIsResult t
  | Stmt.ifStmt _ b o => stmtsAssignResult b || stmtsAssignResult o
  | _ => false

def stmtsAssignResult : List Stmt → Bool
  | [] => false
  | s :: ss => stmtAssignsResult s || stmtsAssignResult ss

end

/-- `CodeValidator._check_result_assignment` over the whole tree. -/
def hasResultAssignment (tree : List Stmt) : Bool := stmtsAssignResult tree

/-- Outcome of `ast.parse` on the raw script text. -/
inductive ParseOutcome
  | syntaxError (lineno : Nat) (msg : String)
  | parsed (tree : List Stmt)

/-- A script as `CodeValidator.validate_code` sees it: the raw text's
character count, whether the text is empty/blank (`not code or not
code.strip()`), and the result of parsing it. -/
structure Script where
  rawLength : Nat
  rawIsBlank : Bool
  parse : ParseOutcome

/-- `CodeValidator.validate_code`, returning the `(is_valid, error_message)`
pair of the source. -/
def validate_code (s : Script) : Bool × Option String :=
  if s.rawIsBlank then (false, some "Empty code provided")
  else if 10000 < s.rawLength then
    (false, some "Code exceeds maximum length of 10000 characters")
  else
    match s.parse with
    | ParseOutcome.syntaxError n m =>
        (false, some ("Syntax error at line " ++ toString n ++ ": " ++ m))
    | ParseOutcome.parsed tree =>
        match checkStmts tree with
        | Except.error e => (false, some e)
        | Except.ok _ =>
            if hasResultAssignment tree then (true, none)
            else (false, some "Code must assign a value to variable 'result'")

/-! ## Data schemas (`models.py`)

`Session` and `Query` are pydantic models.  Pydantic (v1-style `@validator`)
validates fields in declaration order; the `values` mapping handed to a field
validator contains exactly the fields declared — and therefore already
validated — before that field.
-/

/-- The declaration order of `Session`'s fields in `models.py`. -/
def sessionFieldOrder : List String :=
  ["id", "filename", "created_at", "columns", "dtypes",
   "row_count", "column_count", "data_sample", "full_data",
   "conversation_history", "null_counts", "numeric_columns",
   "categorical_columns"]

/-- The field names present in pydantic's `values` mapping when the validator
for field `f` runs: exactly the fields declared before `f`. -/
def valuesAvailableWhenValidating (f : String) : List String :=
  sessionFieldOrder.takeWhile (fun g => g ≠ f)

/-- `Session.validate_dataframe_size` from `models.py`: the body of the
`@validator('row_count')` method.  `valuesColumnCount` is the entry that
`values['column_count']` would yield, `none` when `'column_count' in values`
is false.  (The `:,` thousands separators of the source's f-string are not
reproduced; nothing below depends on that message.) -/
def validate_dataframe_size (v : Int) (valuesColumnCount : Option Int) :
    Except String Int :=
  match valuesColumnCount with
  | some cc =>
      if v * cc > MAX_DATAFRAME_SIZE then
        Except.error ("DataFrame too large: " ++ toString (v * cc) ++
          " cells exceeds limit of " ++ toString MAX_DATAFRAME_SIZE)
      else Except.ok v
  | none => Except.ok v

/-- Validating the `row_count` field of a `Session` under pydantic's
field-order semantics: the `values` mapping holds `column_count` only if
`column_count` is declared before `row_count`. -/
def sessionRowCountValidation (row_count column_count : Int) :
    Except String Int :=
  validate_dataframe_size row_count
    (if "column_count" ∈ valuesAvailableWhenValidating "row_count" then
       some column_count
     else none)

/-- Python `s.strip()`: remove leading and trailing whitespace.  (Python
also strips a few exotic whitespace code points; the scripts and questions
below use only ordinary spaces, where the two agree.) -/
def pyStrip (s : String) : String :=
  String.mk (((s.data.dropWhile Char.isWhitespace).reverse.dropWhile
    Char.isWhitespace).reverse)

/-- Validation of `Query.question` from `models.py`: pydantic applies the
`Field(min_length=1, max_length=1000)` constraints to the raw string first,
then the `clean_question` validator returns `v.strip()`. -/
def validate_query_question (question : String) : Except String String :=
  if question.length < 1 then
    Except.error "ensure this value has at least 1 characters"
  else if 1000 < question.length then
    Except.error "ensure this value has at most 1000 characters"
  else Except.ok (pyStrip question)

/-! ## Python runtime values

The subset of Python values the claims touch.  DataFrame/Series/ndarray
results are outside this type; the branches of the source that handle them
are noted where they are skipped.  `boolV` is kept distinct from `intV`, and
the fact that Python's `bool` is a subclass of `int` — so that
`isinstance(x, (int, float))` is true for booleans — is modelled explicitly
in `isIntOrFloatInstance`.
-/

inductive PyValue
  | noneV
  | boolV (b : Bool)
  | intV (n : Int)
  | strV (s : String)
  | listV (xs : List PyValue)
  | dictV (entries : List (String × PyValue))

/-- `x is None`. -/
def isPyNone : PyValue → Bool
  | PyValue.noneV => true
  | _ => false

/-- `isinstance(x, dict)`. -/
def isDictInstance : PyValue → Bool
  | PyValue.dictV _ => true
  | _ => false

/-- `isinstance(x, (list, tuple))`. -/
def isListInstance : PyValue → Bool
  | PyValue.listV _ => true
  | _ => false

/-- `isinstance(x, (int, float))`.  In Python `bool` is a subclass of `int`,
so this is true for booleans as well. -/
def isIntOrFloatInstance : PyValue → Bool
  | PyValue.intV _ => true
  | PyValue.boolV _ => true
  | _ => false

/-- `isinstance(x, bool)`. -/
def isBoolInstance : PyValue → Bool
  | PyValue.boolV _ => true
  | _ => false

/-- `isinstance(x, str)`. -/
def isStrInstance : PyValue → Bool
  | PyValue.strV _ => true
  | _ => false

/-- `len(x)` for the sized values of the model (other values would raise in
Python; those branches are never reached below). -/
def pyLen : PyValue → Nat
  | PyValue.listV xs => xs.length
  | PyValue.dictV es => es.length
  | PyValue.strV s => s.length
  | _ => 0

/-- `type(x).__name__`. -/
def pyTypeName : PyValue → String
  | PyValue.noneV => "NoneType"
  | PyValue.boolV _ => "bool"
  | PyValue.intV _ => "int"
  | PyValue.strV _ => "str"
  | PyValue.listV _ => "list"
  | PyValue.dictV _ => "dict"

mutual

/-- Python `repr(x)` for the modelled values. -/
def pyRepr : PyValue → String
  | PyValue.noneV => "None"
  | PyValue.boolV b => if b then "True" else "False"
  | PyValue.intV n => toString n
  | PyValue.strV s => "\x27" ++ s ++ "\x27"
  | PyValue.listV xs => "[" ++ String.intercalate ", " (pyReprList xs) ++ "]"
  | PyValue.dictV es =>
      "\x7b" ++ String.intercalate ", " (pyReprEntries es) ++ "\x7d"

def pyReprList : List PyValue → List String
  | [] => []
  | v :: vs => pyRepr v :: pyReprList vs

def pyReprEntries : List (String × PyValue) → List String
  | [] => []
  | (k, v) :: es => ("\x27" ++ k ++ "\x27: " ++ pyRepr v) :: pyReprEntries es

end

/-- Python `str(x)`: like `repr` except that strings render without quotes. -/
def pyStr (v : PyValue) : String :=
  match v with
  | PyValue.strV s => s
  | v => pyRepr v

/-- `d.get(k, default)`. -/
def dictGet (es : List (String × PyValue)) (k : String) (d : PyValue) :
    PyValue :=
  (es.lookup k).getD d

/-- `x == "lit"` between a Python value and a string literal. -/
def pyEqStr (v : PyValue) (t : String) : Bool :=
  match v with
  | PyValue.strV s => s = t
  | _ => false

/-- `xs[i]` on a list value (non-lists would raise; unreached below). -/
def pyIndex (v : PyValue) (i : Nat) : PyValue :=
  match v with
  | PyValue.listV xs => xs.getD i PyValue.noneV
  | _ => PyValue.noneV

/-- `x[:n]` on a list value. -/
def pyTake (v : PyValue) (n : Nat) : PyValue :=
  match v with
  | PyValue.listV xs => PyValue.listV (xs.take n)
  | v => v

/-! ## Result summarization (`conversation_manager.py`,
`ConversationManager._summarize_result`) -/

/-- `', '.join(columns)` where `columns` is a list of column-name strings. -/
def joinPyStrs (v : PyValue) : String :=
  match v with
  | PyValue.listV xs => String.intercalate ", " (xs.map pyStr)
  | _ => ""

/-- The `isinstance(result, dict)` branch of `_summarize_result`. -/
def summarizeDict (es : List (String × PyValue)) : String :=
  if pyEqStr (dictGet es "type" PyValue.noneV) "dataframe" then
    let shape := dictGet es "shape" (PyValue.listV [PyValue.intV 0, PyValue.intV 0])
    let columns := dictGet es "columns" (PyValue.listV [])
    "DataFrame with " ++ pyStr (pyIndex shape 0) ++ " rows and " ++
      pyStr (pyIndex shape 1) ++ " columns. Columns: " ++
      joinPyStrs (pyTake columns 5) ++
      (if pyLen columns > 5 then " ..." else "")
  else if pyEqStr (dictGet es "type" PyValue.noneV) "series" then
    let lengthVal :=
      match es.lookup "length" with
      | some v => v
      | none => PyValue.intV (pyLen (dictGet es "data" (PyValue.dictV [])))
    "Series with " ++ pyStr lengthVal ++ " values"
  else if pyEqStr (dictGet es "type" PyValue.noneV) "array" then
    let shape := dictGet es "shape" (PyValue.strV "unknown shape")
    "Array with shape " ++ pyStr shape
  else
    let keys := (es.map Prod.fst).take 5
    "Dictionary with " ++ toString es.length ++ " keys: " ++
      String.intercalate ", " keys ++
      (if es.length > 5 then " ..." else "")

/-- The `isinstance(result, (list, tuple))` branch of `_summarize_result`. -/
def summarizeList (xs : List PyValue) : String :=
  if xs.length > 10 then
    let sample :=
      (pyRepr (PyValue.listV (xs.take 3))).dropRight 1 ++ ", ...]"
    "List with " ++ toString xs.length ++ " items: " ++ sample
  else
    "List with " ++ toString xs.length ++ " items: " ++
      pyStr (PyValue.listV xs)

/-- `ConversationManager._summarize_result`.  The chain of `isinstance`
checks is reproduced in source order; in particular the `(int, float)` check
precedes the `bool` check and — because `bool` is a subclass of `int` in
Python — already captures boolean results, leaving the `bool` branch
unreachable. -/
def _summarize_result (result : PyValue) : String :=
  if isPyNone result then "No result"
  else if isDictInstance result then
    (match result with
     | PyValue.dictV es => summarizeDict es
     | _ => "")
  else if isListInstance result then
    (match result with
     | PyValue.listV xs => summarizeList xs
     | _ => "")
  else if isIntOrFloatInstance result then
    "Numeric value: " ++ pyStr result
  else if isBoolInstance result then
    "Boolean value: " ++ pyStr result
  else if isStrInstance result then
    (match result with
     | PyValue.strV s =>
         if s.length > 100 then
           "String (length: " ++ toString s.length ++ "): " ++
             s.take 100 ++ "..."
         else "String: " ++ s
     | _ => "")
  else
    let rs := pyStr result
    if rs.length > 100 then
      "Result of type " ++ pyTypeName result ++ ": " ++ rs.take 100 ++ "..."
    else
      "Result of type " ++ pyTypeName result ++ ": " ++ rs

/-! ## Sandboxed executor (`executor.py`) -/

/-- The dataset during execution; a concrete table of cells so that all
definitions evaluate. -/
abbrev DataFrame := List (List Int)

/-- `df.copy()`: a new object whose contents equal the original's.  Object
identity is handled by the heap model below. -/
def df_copy (d : DataFrame) : DataFrame := d

/-- A value bound in the execution namespace (`executor.py` lines 137–147). -/
inductive NsValue
  | dataset (d : DataFrame)
  | pandasModule
  | numpyModule
  | matplotlibPyplot
  | datetimeClass
  | mathModule
  | statisticsModule
  | noneSentinel

/-- The restricted namespace dict built by `execute_code_safely`, entries in
source order. -/
def build_namespace (df : DataFrame) : List (String × NsValue) :=
  [("df", NsValue.dataset (df_copy df)),
   ("pd", NsValue.pandasModule),
   ("np", NsValue.numpyModule),
   ("plt", NsValue.matplotlibPyplot),
   ("datetime", NsValue.datetimeClass),
   ("math", NsValue.mathModule),
   ("statistics", NsValue.statisticsModule),
   ("result", NsValue.noneSentinel)]

/-- The namespace contents asserted by the specification (stated from the
spec's words, for comparison with `build_namespace`): the dataset copy under
`df`, the dataframe library, the numeric-array library, date/time utilities,
math functions, statistics functions, and the `result` sentinel — nothing
else. -/
def spec_namespace_names : List String :=
  ["df", "pd", "np", "datetime", "math", "statistics", "result"]

/-- A heap of dataframe objects; a Python variable holds a reference (an
index into the heap).  Mutation of a dataframe in place is a `set` at its
index. -/
abbrev Heap := List DataFrame

/-- The dataset-visible effect of one `execute_code_safely` call: the
namespace binds `df` to a freshly allocated copy of the caller's dataframe
(`'df': df.copy()`), so the script — modelled as an arbitrary rewrite of the
dataframe its namespace can reach — mutates only that copy. -/
def execute_script_on_heap (h : Heap) (p : Nat)
    (script : DataFrame → DataFrame) : Heap :=
  let h2 := h ++ [df_copy (h.getD p [])]
  h2.set h.length (script (h2.getD h.length []))

/-- `timeout = timeout or settings.MAX_EXECUTION_TIMEOUT`: Python `or`
treats both `None` and `0` as falsy, so either yields the configured
default. -/
def effectiveTimeout : Option Nat → Nat
  | none => MAX_EXECUTION_TIMEOUT
  | some n => if n = 0 then MAX_EXECUTION_TIMEOUT else n

/-- The condition of the stdout fallback in `run_code`
(`if result is None and output_buffer.getvalue()`): the final value of the
`result` binding is `None` and captured stdout is non-empty. -/
def stdout_fallback_taken (finalResult : PyValue) (stdout : String) : Bool :=
  isPyNone finalResult && !stdout.isEmpty

/-- The inner `run_code` closure of `execute_code_safely`, given the value of
`namespace.get('result')` after `exec` and the captured stdout. -/
def run_code (finalResult : PyValue) (stdout : String) : PyValue :=
  if stdout_fallback_taken finalResult stdout then
    PyValue.strV (pyStrip stdout)
  else finalResult

/-- `format_and_truncate_result` from `executor.py`, for the modelled value
types.  The DataFrame/Series/ndarray branches of the source come first and
are outside `PyValue`; the remaining branches are reproduced in source
order: `str`, then `(int, float, bool)` (returned unchanged), then
`(list, dict)`, then the catch-all `str(result)` conversion. -/
def format_and_truncate_result (result : PyValue) : PyValue × Bool :=
  match result with
  | PyValue.strV s =>
      if s.length > MAX_OUTPUT_SIZE then
        (PyValue.strV (s.take MAX_OUTPUT_SIZE ++ "..."), true)
      else (PyValue.strV s, false)
  | PyValue.intV _ => (result, false)
  | PyValue.boolV _ => (result, false)
  | PyValue.listV _ =>
      let rs := pyStr result
      if rs.length > MAX_OUTPUT_SIZE then
        (PyValue.dictV
          [("type", PyValue.strV (pyTypeName result)),
           ("data", PyValue.strV (rs.take MAX_OUTPUT_SIZE ++ "...")),
           ("truncated", PyValue.boolV true),
           ("length", PyValue.intV (pyLen result))], true)
      else (result, false)
  | PyValue.dictV _ =>
      let rs := pyStr result
      if rs.length > MAX_OUTPUT_SIZE then
        (PyValue.dictV
          [("type", PyValue.strV (pyTypeName result)),
           ("data", PyValue.strV (rs.take MAX_OUTPUT_SIZE ++ "...")),
           ("truncated", PyValue.boolV true),
           ("length", PyValue.intV (pyLen result))], true)
      else (result, false)
  | PyValue.noneV =>
      let rs := pyStr result
      if rs.length > MAX_OUTPUT_SIZE then
        (PyValue.strV (rs.take MAX_OUTPUT_SIZE ++ "..."), true)
      else (PyValue.strV rs, false)

/-- What `await asyncio.wait_for(future, timeout)` came back with: a timeout,
the `run_code` inputs on normal completion, or an exception raised by the
script. -/
inductive AwaitOutcome
  | timedOut
  | completed (finalResult : PyValue) (stdout : String)
  | raised (msg : String)

/-- `sub` occurs as a substring of `m` (Python's `sub in m`). -/
def substrOccurs (m sub : String) : Bool := 2 ≤ (m.splitOn sub).length

/-- The error-message cleanup chain of `execute_code_safely`
(lines 208–217). -/
def clean_error_message (m : String) : String :=
  if substrOccurs m "name" && substrOccurs m "is not defined" then
    "Variable or function not found: " ++ m
  else if substrOccurs m "KeyError" then
    "Column not found in DataFrame: " ++ m
  else if substrOccurs m "TypeError" then
    "Type error in operation: " ++ m
  else if substrOccurs m "ValueError" then
    "Invalid value or operation: " ++ m
  else if substrOccurs m "AttributeError" then
    "Attribute error: " ++ m
  else m

/-- `ExecutionResult` from `models.py` (execution time in whole seconds, the
unit the timeout path reports). -/
structure ExecutionResult where
  success : Bool
  output : Option PyValue
  error : Option String
  execution_time : Nat
  truncated : Bool

/-- The control flow of `execute_code_safely`: re-validate, then branch on
the awaited outcome.  `elapsed` stands for `time.time() - start_time` on the
non-timeout paths. -/
def execute_code_safely (code : Script) (outcome : AwaitOutcome)
    (elapsed : Nat) (t : Option Nat) : ExecutionResult :=
  let timeout := effectiveTimeout t
  let validation := validate_code code
  if validation.1 = false then
    { success := false, output := none,
      error := some ("Code validation failed: " ++
        (match validation.2 with
         | some msg => msg
         | none => "None")),
      execution_time := 0, truncated := false }
  else
    match outcome with
    | AwaitOutcome.timedOut =>
        { success := false, output := none,
          error := some ("Code execution timed out after " ++
            toString timeout ++ " seconds. The operation may be too complex."),
          execution_time := timeout, truncated := false }
    | AwaitOutcome.completed finalResult stdout =>
        let r := run_code finalResult stdout
        let ft := format_and_truncate_result r
        { success := true, output := some ft.1, error := none,
          execution_time := elapsed, truncated := ft.2 }
    | AwaitOutcome.raised m =>
        { success := false, output := none,
          error := some (clean_error_message ("Execution error: " ++ m)),
          execution_time := elapsed, truncated := false }

/-! ## Spec-side predicates and concrete scripts used by the theorems -/

mutual

/-- Stated from the claim's words for C3: the script assigns a *value* to a
variable literally named `result`, via a plain assignment or a
type-annotated assignment that actually carries a value. -/
def stmtAssignsValueToResult : Stmt → Bool
  | Stmt.assign ts _ => ts.any targetIsResult
  | Stmt.annAssign t _ v => targetIsResult t && v.isSome
  | Stmt.ifStmt _ b o =>
      stmtsAssignValueToResult b || stmtsAssignValueToResult o
  | _ => false

def stmtsAssignValueToResult : List Stmt → Bool
  | [] => false
  | s :: ss => stmtAssignsValueToResult s || stmtsAssignValueToResult ss

end

/-- Spec-side, whole tree: some statement assigns a value to `result`. -/
def assignsValueToResult (tree : List Stmt) : Bool :=
  stmtsAssignValueToResult tree

/-- A small concrete dataset. -/
def sampleDF : DataFrame := [[1, 2], [3, 4]]

/-- A one-object heap holding `sampleDF`. -/
def sampleHeap : Heap := [sampleDF]

/-- The Python script `result = 1`. -/
def sampleValidScript : Script :=
  { rawLength := 10, rawIsBlank := false,
    parse := ParseOutcome.parsed
      [Stmt.assign [Expr.name "result" ExprCtx.store]
        (Expr.const (Const.intC 1))] }

/-- The Python script `result: int` — a bare annotated statement that names
`result` but assigns no value. -/
def bareAnnScript : Script :=
  { rawLength := 11, rawIsBlank := false,
    parse := ParseOutcome.parsed
      [Stmt.annAssign (Expr.name "result" ExprCtx.store)
        (Expr.name "int" ExprCtx.load) none] }

/-- The tree of `bareAnnScript`. -/
def bareAnnTree : List Stmt :=
  [Stmt.annAssign (Expr.name "result" ExprCtx.store)
    (Expr.name "int" ExprCtx.load) none]

/-- The Python script `result = None` followed by `print("hi")`. -/
def assignNonePrintScript : Script :=
  { rawLength := 25, rawIsBlank := false,
    parse := ParseOutcome.parsed
      [Stmt.assign [Expr.name "result" ExprCtx.store]
        (Expr.const Const.noneC),
       Stmt.exprStmt (Expr.call (Expr.name "print" ExprCtx.load)
        [Expr.const (Const.strC "hi")])] }

/-- The Python script `result = df.<a>` for an attribute name `a`. -/
def dunderScript (a : String) : Script :=
  { rawLength := 50, rawIsBlank := false,
    parse := ParseOutcome.parsed
      [Stmt.assign [Expr.name "result" ExprCtx.store]
        (Expr.attrAccess (Expr.name "df" ExprCtx.load) a ExprCtx.load)] }

/-- The Python script `h = hasattr` followed by
`result = h(df, "columns")`: the reflective accessor read as a value and
called through the alias. -/
def aliasHasattrScript : Script :=
  { rawLength := 40, rawIsBlank := false,
    parse := ParseOutcome.parsed
      [Stmt.assign [Expr.name "h" ExprCtx.store]
        (Expr.name "hasattr" ExprCtx.load),
       Stmt.assign [Expr.name "result" ExprCtx.store]
        (Expr.call (Expr.name "h" ExprCtx.load)
          [Expr.name "df" ExprCtx.load,
           Expr.const (Const.strC "columns")])] }

/-- The Python script `result = hasattr(df, "columns")`: the direct by-name
call. -/
def directHasattrScript : Script :=
  { rawLength := 31, rawIsBlank := false,
    parse := ParseOutcome.parsed
      [Stmt.assign [Expr.name "result" ExprCtx.store]
        (Expr.call (Expr.name "hasattr" ExprCtx.load)
          [Expr.name "df" ExprCtx.load,
           Expr.const (Const.strC "columns")])] }

/-! ## Theorems -/

/-- C1 (counterexample): the claim says the execution namespace binds exactly
the dataset copy, the dataframe library, the numeric-array library,
date/time utilities, math, statistics and the `result` sentinel — but the
namespace built by `execute_code_safely` also binds the plotting library
under `plt`, a name outside that list. -/
theorem C1_counterexample :
    "plt" ∈ (build_namespace sampleDF).map Prod.fst ∧
    "plt" ∉ spec_namespace_names := by
  decide

/-- C1 (amended): the execution namespace binds exactly the dataset copy
under `df`, the dataframe library, the numeric-array library, the plotting
library under `plt`, date/time utilities, math functions, statistics
functions, and `result` pre-set to the absent-value sentinel — and nothing
else; the dataset entry is a copy of the caller's dataframe. -/
theorem C1_namespace_exact (df : DataFrame) :
    (build_namespace df).map Prod.fst =
      ["df", "pd", "np", "plt", "datetime", "math", "statistics", "result"] ∧
    (build_namespace df).lookup "df" = some (NsValue.dataset (df_copy df)) ∧
    (build_namespace df).lookup "result" = some NsValue.noneSentinel :=
  ⟨rfl, rfl, rfl⟩

/-- C2 (code bug): pydantic hands a field validator only the fields declared
before the validated field, and `row_count` is declared before
`column_count`, so `validate_dataframe_size` never sees `column_count` and
never fires: every `row_count`/`column_count` pair passes the schema check,
including `200000 × 1000 = 200,000,000` cells, which exceeds the configured
maximum of `100,000,000`. -/
theorem C2_session_size_check_dead :
    (∀ rc cc : Int, sessionRowCountValidation rc cc = Except.ok rc) ∧
    sessionRowCountValidation 200000 1000 = Except.ok 200000 ∧
    (200000 : Int) * 1000 > MAX_DATAFRAME_SIZE := by
  refine ⟨?_, rfl, by decide⟩
  intro rc cc
  unfold sessionRowCountValidation
  rw [if_neg (by decide)]
  rfl

/-- C7 (counterexample): the claim says a question is accepted iff its
stripped form has between 1 and 1000 characters — but the single-space
question `" "` is accepted (its raw length is 1) and the stored stripped
string is empty. -/
theorem C7_counterexample :
    validate_query_question " " = Except.ok "" ∧ (pyStrip " ").length = 0 := by
  constructor
  · rfl
  · rfl

/-- C7 (amended): `Query` accepts a question iff the *raw* string is between
1 and 1000 characters (the pydantic length bounds run before the stripping
validator), and an accepted `Query` holds the stripped string. -/
theorem C7_query_bounds (q : String) :
    ((∃ r, validate_query_question q = Except.ok r) ↔
      (1 ≤ q.length ∧ q.length ≤ 1000)) ∧
    (1 ≤ q.length → q.length ≤ 1000 →
      validate_query_question q = Except.ok (pyStrip q)) := by
  unfold validate_query_question
  constructor
  · constructor
    · intro ⟨r, hr⟩
      by_cases h1 : q.length < 1
      · simp [h1] at hr
      · by_cases h2 : 1000 < q.length
        · simp [h1, h2] at hr
        · omega
    · intro ⟨h1, h2⟩
      rw [if_neg (by omega), if_neg (by omega)]
      exact ⟨pyStrip q, rfl⟩
  · intro h1 h2
    rw [if_neg (by omega), if_neg (by omega)]

/-- C7 witness: the theorem applied at the question `"  hi  "`. -/
theorem C7_query_bounds_witness :
    validate_query_question "  hi  " = Except.ok "hi" :=
  (C7_query_bounds "  hi  ").2 (by decide) (by decide)

/-- C8 (code bug): because Python's `bool` is a subclass of `int`, the
`isinstance(result, (int, float))` branch of `_summarize_result` captures
boolean results before the `bool` branch can run, so a boolean result is
summarized as `"Numeric value: …"`, never `"Boolean value: …"`; non-boolean
numeric results are summarized as the claim says. -/
theorem C8_bool_summarized_as_numeric :
    _summarize_result (PyValue.boolV true) = "Numeric value: True" ∧
    _summarize_result (PyValue.boolV true) ≠ "Boolean value: True" ∧
    (∀ n : Int, _summarize_result (PyValue.intV n) =
      "Numeric value: " ++ toString n) := by
  refine ⟨rfl, by decide, fun n => rfl⟩

/-- C10: the script `h = hasattr; result = h(df, "columns")` passes
`validate_code`: `visit_Call` rejects only direct by-name calls to the four
reflective accessors, and `hasattr` is absent from the forbidden-builtin
set, so reading it as a value and calling it through the alias is accepted —
while the direct call is rejected. -/
theorem C10_alias_hasattr_accepted :
    validate_code aliasHasattrScript = (true, none) ∧
    "hasattr" ∉ FORBIDDEN_BUILTINS ∧
    validate_code directHasattrScript =
      (false, some "Forbidden function call: hasattr") := by
  refine ⟨rfl, by decide, rfl⟩

/-- C3 (counterexample): the claim says a clean script is accepted iff it
assigns a *value* to `result` — but the bare annotated statement
`result: int`, which assigns no value, is accepted, because
`_check_result_assignment` counts any `AnnAssign` targeting `result` without
looking at its value. -/
theorem C3_counterexample :
    validate_code bareAnnScript = (true, none) ∧
    assignsValueToResult bareAnnTree = false :=
  ⟨rfl, rfl⟩

/-- C3 (amended): a syntactically valid, otherwise-clean script is accepted
iff it contains a plain assignment to a name literally `result` or a
type-annotated statement targeting `result` — the annotated form counting
whether or not it carries a value; when neither exists, validation fails
with the message demanding the assignment. -/
theorem C3_result_assignment_iff (s : Script) (tree : List Stmt)
    (hb : s.rawIsBlank = false) (hl : s.rawLength ≤ 10000)
    (hp : s.parse = ParseOutcome.parsed tree)
    (hclean : checkStmts tree = Except.ok ()) :
    ((validate_code s).1 = hasResultAssignment tree) ∧
    (hasResultAssignment tree = false →
      (validate_code s).2 = some "Code must assign a value to variable 'result'") ∧
    (hasResultAssignment tree = true → validate_code s = (true, none)) := by
  unfold validate_code
  simp only [hb, hp, hclean, Bool.false_eq_true, if_false,
    if_neg (show ¬ 10000 < s.rawLength from by omega)]
  cases h : hasResultAssignment tree <;> simp [h]

/-- C3 witness: the theorem applied to the concrete script `result = 1`. -/
theorem C3_result_assignment_iff_witness :
    validate_code sampleValidScript = (true, none) :=
  (C3_result_assignment_iff sampleValidScript
    [Stmt.assign [Expr.name "result" ExprCtx.store] (Expr.const (Const.intC 1))]
    rfl (by decide) rfl rfl).2.2 rfl

/-- C4: whenever execution times out, `execute_code_safely` (on a script
that passed re-validation) returns a failed `ExecutionResult` whose error
message mentions the timeout and whose reported `execution_time` equals the
timeout in effect — the caller-supplied override, or the configured default
of 5 seconds when no override is given (Python's `or` also substitutes the
default for an override of 0). -/
theorem C4_timeout_result (code : Script) (elapsed : Nat) (t : Option Nat)
    (hv : (validate_code code).1 = true) :
    (execute_code_safely code AwaitOutcome.timedOut elapsed t).success = false ∧
    (execute_code_safely code AwaitOutcome.timedOut elapsed t).error =
      some ("Code execution timed out after " ++ toString (effectiveTimeout t) ++
        " seconds. The operation may be too complex.") ∧
    (execute_code_safely code AwaitOutcome.timedOut elapsed t).execution_time =
      effectiveTimeout t ∧
    effectiveTimeout none = MAX_EXECUTION_TIMEOUT := by
  simp [execute_code_safely, hv]
  rfl

/-- C4 witness: the theorem applied to the script `result = 1` with a
2-second override. -/
theorem C4_timeout_result_witness :
    (execute_code_safely sampleValidScript AwaitOutcome.timedOut 0 (some 2)).success
      = false ∧
    (execute_code_safely sampleValidScript AwaitOutcome.timedOut 0 (some 2)).error =
      some "Code execution timed out after 2 seconds. The operation may be too complex." ∧
    (execute_code_safely sampleValidScript AwaitOutcome.timedOut 0 (some 2)).execution_time
      = 2 :=
  ⟨(C4_timeout_result sampleValidScript 0 (some 2) rfl).1,
   (C4_timeout_result sampleValidScript 0 (some 2) rfl).2.1,
   (C4_timeout_result sampleValidScript 0 (some 2) rfl).2.2.1⟩

/-- C5: for the otherwise-valid script `result = df.<a>`, validation rejects
a double-underscore-delimited attribute `a` outside the safe set with the
security violation naming it, and accepts an attribute inside the safe
set. -/
theorem C5_dunder_allowlist (a : String) :
    (strStartsWith a "__" = true → strEndsWith a "__" = true →
      a ∉ safe_dunders →
      validate_code (dunderScript a) =
        (false, some ("Forbidden dunder attribute: " ++ a))) ∧
    (a ∈ safe_dunders → validate_code (dunderScript a) = (true, none)) := by
  constructor
  · intro hs he hn
    have hck : checkStmts [Stmt.assign [Expr.name "result" ExprCtx.store]
          (Expr.attrAccess (Expr.name "df" ExprCtx.load) a ExprCtx.load)] =
        Except.error ("Forbidden dunder attribute: " ++ a) := by
      simp [checkStmts, checkStmt, checkExprList, checkExpr, checkName,
        checkDunderAttr, hs, he, hn]
      rfl
    unfold validate_code dunderScript
    simp only [hck, Bool.false_eq_true, if_false,
      if_neg (show ¬ (10000 : Nat) < 50 from by omega)]
  · intro hmem
    have : a = "__name__" ∨ a = "__doc__" ∨ a = "__class__" ∨ a = "__dict__" ∨
        a = "__str__" ∨ a = "__repr__" ∨ a = "__len__" ∨ a = "__getitem__" := by
      simpa [safe_dunders] using hmem
    rcases this with rfl | rfl | rfl | rfl | rfl | rfl | rfl | rfl <;> rfl

/-- C5 witness: the theorem applied at the unsafe dunder `__globals__` and at
the safe dunder `__name__`. -/
theorem C5_dunder_allowlist_witness :
    validate_code (dunderScript "__globals__") =
      (false, some "Forbidden dunder attribute: __globals__") ∧
    validate_code (dunderScript "__name__") = (true, none) :=
  ⟨(C5_dunder_allowlist "__globals__").1 (by decide) (by decide) (by decide),
   (C5_dunder_allowlist "__name__").2 (by decide)⟩

/-- C6 (counterexample): the claim says the stdout fallback is used exactly
when `result` was never assigned — but the code tests the *value* of
`result` against `None`, so the script `result = None` followed by
`print("hi")`, which does assign `result` and passes validation, still
takes the fallback. -/
theorem C6_counterexample :
    validate_code assignNonePrintScript = (true, none) ∧
    run_code PyValue.noneV "hi\n" = PyValue.strV "hi" ∧
    ¬ (∀ (assigned : Bool) (finalResult : PyValue) (stdout : String),
        (assigned = false → finalResult = PyValue.noneV) →
        (stdout_fallback_taken finalResult stdout = true ↔
          (assigned = false ∧ stdout ≠ ""))) := by
  refine ⟨rfl, rfl, fun hclaim => ?_⟩
  have h := (hclaim true PyValue.noneV "hi" (by simp)).mp (by decide)
  exact absurd h.1 (by decide)

/-- C6 (amended): on a successful execution the captured, stripped standard
output is used as the result exactly when the final value of the `result`
binding is the absent-value sentinel (whether `result` was never assigned or
was assigned `None`) and the captured output is non-empty; in every other
case the `result` value is used. -/
theorem C6_stdout_fallback (finalResult : PyValue) (stdout : String) :
    (stdout_fallback_taken finalResult stdout = true ↔
      (isPyNone finalResult = true ∧ stdout ≠ "")) ∧
    (stdout_fallback_taken finalResult stdout = true →
      run_code finalResult stdout = PyValue.strV (pyStrip stdout)) ∧
    (stdout_fallback_taken finalResult stdout = false →
      run_code finalResult stdout = finalResult) := by
  refine ⟨?_, fun h => ?_, fun h => ?_⟩
  · unfold stdout_fallback_taken
    constructor
    · intro h
      have h' := h
      rw [Bool.and_eq_true] at h'
      refine ⟨h'.1, fun he => ?_⟩
      rw [he] at h'
      simp [String.isEmpty] at h'
    · intro ⟨h1, h2⟩
      rw [Bool.and_eq_true]
      refine ⟨h1, ?_⟩
      cases he : stdout.isEmpty
      · rfl
      · exact absurd ((String.isEmpty_iff stdout).mp he) h2
  · unfold run_code
    rw [h]
    rfl
  · unfold run_code
    rw [h]
    rfl

/-- C6 witness: the amended theorem applied at a `None` result with
non-empty stdout. -/
theorem C6_stdout_fallback_witness :
    run_code PyValue.noneV " ok " = PyValue.strV "ok" :=
  (C6_stdout_fallback PyValue.noneV " ok ").2.1 (by decide)

/-- C9: `execute_code_safely` binds `df` to a freshly allocated copy of the
caller's dataframe, so whatever rewrite the script applies to the dataframe
its namespace reaches, the caller's dataframe object is unchanged after the
call. -/
theorem C9_caller_df_unchanged (h : Heap) (p : Nat)
    (script : DataFrame → DataFrame) (hp : p < h.length) :
    (execute_script_on_heap h p script).getD p [] = h.getD p [] := by
  unfold execute_script_on_heap
  have hne : p ≠ h.length := Nat.ne_of_lt hp
  rw [List.getD_eq_getElem?_getD, List.getElem?_set_ne (fun he => hne he.symm),
    List.getElem?_append_left hp, ← List.getD_eq_getElem?_getD]

/-- C9 witness: the theorem applied to a one-dataframe heap and a script
that erases every row of the dataframe it can reach. -/
theorem C9_caller_df_unchanged_witness :
    0 < sampleHeap.length ∧
    (execute_script_on_heap sampleHeap 0 (fun _ => [])).getD 0 [] = sampleDF :=
  ⟨by decide, C9_caller_df_unchanged sampleHeap 0 (fun _ => []) (by decide)⟩

end RedPandas
